import Mathlib

/-!
Verification development for a small inference server: an HTTP embeddings API
fronted by an admission-control limiter, an optional dynamic-batching layer,
and a bounded thread pool that runs blocking model invocations.

The API layer (`app/api.py`), thread pool (`app/threadpool.py`), model
registry (`app/models/registry.py`), metrics wrappers
(`app/monitoring/metrics.py`) and OOM handler
(`app/models/generation_utils.py`) are embedded from their sources below.
The admission limiter (`app/concurrency/limiter.py`) and the batching
service (`app/batching.py`) are imported by that code but their sources are
not part of this tree; those two components are modelled from the
specification, as marked on each definition.
-/

namespace InferServer

/-- Decidable equality on `Except`, used to compare operation outcomes. -/
instance {ε α : Type} [DecidableEq ε] [DecidableEq α] : DecidableEq (Except ε α) := fun a b =>
  match a, b with
  | .error e, .error f =>
    if h : e = f then .isTrue (by rw [h])
    else .isFalse (by intro hh; injection hh; exact h (by assumption))
  | .error _, .ok _ => .isFalse (by intro hh; cases hh)
  | .ok _, .error _ => .isFalse (by intro hh; cases hh)
  | .ok x, .ok y =>
    if h : x = y then .isTrue (by rw [h])
    else .isFalse (by intro hh; injection hh; exact h (by assumption))

/-! ### Admission limiter (modelled from the spec, §4.1) -/

/-- Modelled from the spec: configuration of the admission limiter, read from
the `MAX_CONCURRENT` and `MAX_QUEUE_SIZE` environment variables by the missing
module `app/concurrency/limiter.py`. `maxConcurrent` is the execution
parallelism ceiling, `maxAdmitted` the total admission ceiling
(running + waiting). -/
structure LimiterConfig where
  maxConcurrent : Nat
  maxAdmitted : Nat
deriving DecidableEq, Repr

/-- The three admission failures of the spec's error taxonomy (§7). -/
inductive AcquireError where
  | QueueFull
  | QueueTimeout
  | ShuttingDown
deriving DecidableEq, Repr

/-- AdmissionTicket states (spec §3). -/
inductive TicketState where
  | Queued
  | Running
  | Released
deriving DecidableEq, Repr

/-- Modelled from the spec: `LimiterState` (§3) with the running tickets and
the FIFO wait list kept as lists of ticket ids so that FIFO wake order is
observable. `admitted_count` is the derived quantity `admittedCount`. -/
structure LimiterState where
  running : List Nat
  waiting : List Nat
  shuttingDown : Bool
deriving DecidableEq, Repr

/-- `admitted_count = running + waiting` (spec §3). -/
def admittedCount (s : LimiterState) : Nat :=
  s.running.length + s.waiting.length

/-- The limiter's initial state: nothing admitted, not shutting down. -/
def limiterInit : LimiterState := ⟨[], [], false⟩

/-- Modelled from the spec: `acquire` (§4.1) for the missing module
`app/concurrency/limiter.py`. It first checks `shutting_down` and fails with
`ShuttingDown`; then, if `admitted_count == MaxAdmitted`, fails immediately
with `QueueFull` leaving the state unchanged (the caller is never parked);
otherwise the ticket is admitted and either starts `Running` (when
`running_count < MaxConcurrent`) or is appended to the FIFO wait list. -/
def acquire (cfg : LimiterConfig) (s : LimiterState) (t : Nat) :
    Except AcquireError TicketState × LimiterState :=
  if s.shuttingDown then (.error .ShuttingDown, s)
  else if admittedCount s = cfg.maxAdmitted then (.error .QueueFull, s)
  else if s.running.length < cfg.maxConcurrent then
    (.ok .Running, { s with running := s.running ++ [t] })
  else
    (.ok .Queued, { s with waiting := s.waiting ++ [t] })

/-- Modelled from the spec: `release` (§4.1) of a Running ticket. It removes
the ticket from the running set (which decrements both `running_count` and
`admitted_count`) and wakes the next waiter in FIFO order if a run slot is
now free. -/
def release (cfg : LimiterConfig) (s : LimiterState) (t : Nat) : LimiterState :=
  let running2 := s.running.filter (fun x => x != t)
  if running2.length < cfg.maxConcurrent then
    match s.waiting with
    | [] => { s with running := running2 }
    | w :: ws => { s with running := running2 ++ [w], waiting := ws }
  else { s with running := running2 }

/-- Run a sequence of `acquire` calls (one per ticket id) with no interleaved
releases, threading the state and collecting each call's result. -/
def runAcquires (cfg : LimiterConfig) :
    LimiterState → List Nat → List (Except AcquireError TicketState)
  | _, [] => []
  | s, t :: ts => (acquire cfg s t).1 :: runAcquires cfg (acquire cfg s t).2 ts

/-- Number of `QueueFull` failures among a list of acquisition results. -/
def countQueueFull : List (Except AcquireError TicketState) → Nat
  | [] => 0
  | .error .QueueFull :: rs => countQueueFull rs + 1
  | _ :: rs => countQueueFull rs

/-! ### Batch scheduler (modelled from the spec, §4.2) -/

/-- Partition a flat output list back into per-caller slices, consuming
`lens` sub-item counts in order. -/
def splitByLens {R : Type} : List Nat → List R → List (List R)
  | [], _ => []
  | n :: ns, outs => outs.take n :: splitByLens ns (outs.drop n)

/-- Modelled from the spec: the flush of a `PendingBatch` (§4.2) for the
missing module `app/batching.py`. The callers' sub-item lists are
concatenated in arrival order into one input sequence and dispatched as one
model invocation `f`. On success the output sequence is partitioned back into
per-caller slices by each caller's recorded sub-item count; on failure every
caller's result slot is resolved with the same failure. -/
def flushResults {T R E : Type} (f : List T → Except E (List R))
    (callers : List (List T)) : List (Except E (List R)) :=
  match f callers.flatten with
  | .error e => callers.map (fun _ => .error e)
  | .ok outs => (splitByLens (callers.map List.length) outs).map Except.ok

/-! ### Embeddings API (from `src/app/api.py`) -/

/-- The environment-derived knobs read by `create_embeddings`:
`MAX_BATCH_SIZE` (default 32), `MAX_TEXT_CHARS` (default 20000) and the
limiter module's `QUEUE_TIMEOUT_SEC` (a Python float, modelled as a
rational). -/
structure Env where
  maxBatchSize : Nat
  maxTextChars : Nat
  queueTimeoutSec : ℚ
deriving DecidableEq

/-- An `EmbeddingRequest` (`src/app/api.py`): model name, input either a
single string or a list of strings, and an optional `encoding_format`. -/
structure EmbeddingReq where
  model : String
  input : String ⊕ List String
  encodingFormat : Option String
deriving DecidableEq

/-- `texts = [req.input] if isinstance(req.input, str) else list(req.input)`
(`src/app/api.py` line 81). -/
def reqTexts (req : EmbeddingReq) : List String :=
  match req.input with
  | .inl s => [s]
  | .inr l => l

/-- Python's `int()` on a float value: truncation toward zero. -/
def pyInt (q : ℚ) : ℤ := if 0 ≤ q then ⌊q⌋ else ⌈q⌉

/-- An HTTP error response: status code plus the optional `Retry-After`
header value. -/
structure ErrorResponse where
  statusCode : Nat
  retryAfter : Option ℤ
deriving DecidableEq

/-- A loaded embedding model as the API layer sees it: `embed` runs the model
on a list of texts and either returns one vector per text or raises (any
Python exception, collapsed to `Unit`). -/
structure EmbedModel (V : Type) where
  embed : List String → Except Unit (List V)

/-- Modelled from the spec: `batcher.enqueue(model, texts)` for a single
caller, viewed through the spec's batch scheduler — the caller's texts form
the whole flushed batch and it receives the single result slot. -/
def batchEnqueue {V : Type} (m : EmbedModel V) (texts : List String) :
    Except Unit (List V) :=
  (flushResults m.embed [texts]).getD 0 (.error ())

/-- The observable outcome of one `create_embeddings` call: the HTTP
response, how many limiter acquisitions were attempted and how many model
invocations (direct or batched) were started. -/
structure ApiOutcome (V : Type) where
  response : Except ErrorResponse (List V)
  limiterAcquires : Nat
  modelCalls : Nat
deriving DecidableEq

/-- Embedding of `create_embeddings` (`src/app/api.py` lines 69-173).
Validation runs first: a bad `encoding_format`, an oversized batch or an
overlong text each return 400 before the limiter is touched. Then the
limiter is acquired: `QueueFullError` and `QueueTimeoutError` map to 429 with
`Retry-After: int(QUEUE_TIMEOUT_SEC)`, `ShuttingDownError` to 503. Inside the
limiter, a missing model maps to 404; the compute step goes through the
batching service when one is installed with `enabled` true and otherwise
calls `model.embed` directly on the executor; any compute exception maps
to 500. -/
def create_embeddings {V : Type} (env : Env) (req : EmbeddingReq)
    (registry : String → Option (EmbedModel V))
    (limiterOutcome : Except AcquireError Unit) (batcher : Option Bool) :
    ApiOutcome V :=
  if ¬ (req.encodingFormat = none ∨ req.encodingFormat = some "float") then
    ⟨.error ⟨400, none⟩, 0, 0⟩
  else
    let texts := reqTexts req
    if env.maxBatchSize < texts.length then ⟨.error ⟨400, none⟩, 0, 0⟩
    else if texts.any (fun t => decide (env.maxTextChars < t.length)) then
      ⟨.error ⟨400, none⟩, 0, 0⟩
    else
      match limiterOutcome with
      | .error .QueueFull => ⟨.error ⟨429, some (pyInt env.queueTimeoutSec)⟩, 1, 0⟩
      | .error .ShuttingDown => ⟨.error ⟨503, none⟩, 1, 0⟩
      | .error .QueueTimeout => ⟨.error ⟨429, some (pyInt env.queueTimeoutSec)⟩, 1, 0⟩
      | .ok _ =>
        match registry req.model with
        | none => ⟨.error ⟨404, none⟩, 1, 0⟩
        | some m =>
          match (if batcher = some true then batchEnqueue m texts else m.embed texts) with
          | .error _ => ⟨.error ⟨500, none⟩, 1, 1⟩
          | .ok vs => ⟨.ok vs, 1, 1⟩

/-- A request that passes all three validation checks of
`create_embeddings`. -/
def validRequest (env : Env) (req : EmbeddingReq) : Prop :=
  (req.encodingFormat = none ∨ req.encodingFormat = some "float")
  ∧ (reqTexts req).length ≤ env.maxBatchSize
  ∧ ∀ t ∈ reqTexts req, t.length ≤ env.maxTextChars

instance (env : Env) (req : EmbeddingReq) : Decidable (validRequest env req) := by
  unfold validRequest; infer_instance

/-! ### Execution pool (from `src/app/threadpool.py`) -/

/-- A `ThreadPoolExecutor` as the thread pool module sees it: only its worker
count is relevant to the bound. -/
structure Executor where
  maxWorkers : Nat
deriving DecidableEq, Repr

/-- Embedding of `get_executor` (`src/app/threadpool.py` lines 10-18): if the
module-level holder is empty, create an executor with
`max_workers=MAX_CONCURRENT` and store it; otherwise return the stored one.
`MAX_CONCURRENT` comes from the limiter module and is passed as `mc`. -/
def get_executor (mc : Nat) (s : Option Executor) : Executor × Option Executor :=
  match s with
  | none => (⟨mc⟩, some ⟨mc⟩)
  | some e => (e, some e)

/-- Embedding of `shutdown_executor` (`src/app/threadpool.py` lines 21-25):
the holder is reset to `None` (the shutdown of the old executor has no
state-visible effect here). -/
def shutdown_executor (s : Option Executor) : Option Executor :=
  match s with
  | _ => none

/-- The operations that touch the thread-pool holder. -/
inductive PoolOp where
  | getOp
  | shutdownOp
deriving DecidableEq, Repr

/-- Run a sequence of thread-pool operations, collecting every executor
returned by `get_executor`. -/
def runPool (mc : Nat) : Option Executor → List PoolOp → List Executor × Option Executor
  | s, [] => ([], s)
  | s, .getOp :: ops =>
    let p := get_executor mc s
    let q := runPool mc p.2 ops
    (p.1 :: q.1, q.2)
  | s, .shutdownOp :: ops => runPool mc (shutdown_executor s) ops

/-! ### OOM handler (from `src/app/models/generation_utils.py`) -/

/-- `contextlib.suppress(Exception)` around an action: its failure is
swallowed, its success passes through. -/
def suppress_exception {E : Type} (action : Except E Unit) : Except E Unit :=
  match action with
  | .error _ => .ok ()
  | .ok _ => .ok ()

/-- Embedding of `handle_oom` (`src/app/models/generation_utils.py` lines
34-59): log the exception (no state effect here), then — when CUDA is
available — run `torch.cuda.empty_cache()` under `contextlib.suppress`
(`emptyCache` is that call's outcome), then `raise exc`. -/
def handle_oom {E : Type} (exc : E) (cudaAvailable : Bool)
    (emptyCache : Except E Unit) : Except E Unit :=
  match (if cudaAvailable then suppress_exception emptyCache else .ok ()) with
  | .error e => .error e
  | .ok _ => .error exc

/-! ### Metrics wrappers (from `src/app/monitoring/metrics.py`) -/

/-- Embedding of `record_request` (`src/app/monitoring/metrics.py` lines
33-35): `REQUEST_COUNT.labels(...).inc()` runs inside
`contextlib.suppress(Exception)`; on failure the metrics state is left as it
was and no exception escapes. -/
def record_request {σ E : Type} (labelsInc : σ → Except E σ) (s : σ) : Except E σ :=
  match labelsInc s with
  | .ok s2 => .ok s2
  | .error _ => .ok s

/-- Embedding of `observe_latency` (`src/app/monitoring/metrics.py` lines
38-40): the histogram observation runs inside `suppress(Exception)`. -/
def observe_latency {σ E : Type} (labelsObserve : σ → Except E σ) (s : σ) : Except E σ :=
  match labelsObserve s with
  | .ok s2 => .ok s2
  | .error _ => .ok s

/-- Embedding of `record_queue_rejection` (`src/app/monitoring/metrics.py`
lines 43-45): the counter increment runs inside `suppress(Exception)`. -/
def record_queue_rejection {σ E : Type} (inc : σ → Except E σ) (s : σ) : Except E σ :=
  match inc s with
  | .ok s2 => .ok s2
  | .error _ => .ok s

/-! ### Model registry (from `src/app/models/registry.py`) -/

/-- The handler factory resolved for a config entry: one of the two
statically registered constructors, or a dynamically imported class for
entries that give an explicit dotted handler path. -/
inductive HandlerKind where
  | bgeM3
  | embeddingGemma
  | imported (path : String)
deriving DecidableEq, Repr

/-- One entry of the `models:` list in the YAML config. -/
structure CfgItem where
  name : String
  handler : Option String
  hfRepoId : String
deriving DecidableEq, Repr

/-- Embedding of `ModelRegistry._import_handler` (`src/app/models/registry.py`
lines 103-112): a path without a dot is rejected; otherwise the class is
loaded dynamically (load success is assumed here, the claim under study
concerns the default path). -/
def import_handler (path : String) : Except String HandlerKind :=
  if path.toList.contains '.' then .ok (.imported path)
  else .error ("Handler path must be module.Class, got: " ++ path)

/-- Embedding of `ModelRegistry._default_handler_for`
(`src/app/models/registry.py` lines 114-119): a static mapping from the two
known model names to their constructors; any other name is a `ValueError`. -/
def default_handler_for (name : String) : Except String HandlerKind :=
  if name = "bge-m3" then .ok .bgeM3
  else if name = "embedding-gemma-300m" then .ok .embeddingGemma
  else .error ("Unknown model name: " ++ name)

/-- Whether `_load_from_config` skips a config entry: entries outside the
`allowed_models` set are skipped; with no `allowed_models` nothing is
skipped. -/
def skipsItem (allowed : Option (List String)) (name : String) : Bool :=
  match allowed with
  | none => false
  | some req => !(req.contains name)

/-- The per-item loop of `ModelRegistry._load_from_config`
(`src/app/models/registry.py` lines 81-96): skip entries filtered out by
`allowed_models`; resolve the handler from the explicit dotted path when one
is given (Python truthiness: `None` and `""` both mean no explicit handler),
falling back to the static default mapping; any resolution error aborts the
whole load. -/
def loadItems (allowed : Option (List String)) :
    List CfgItem → Except String (List (String × HandlerKind))
  | [] => .ok []
  | item :: rest =>
    if skipsItem allowed item.name then loadItems allowed rest
    else
      match (if item.handler.getD "" = "" then default_handler_for item.name
             else import_handler (item.handler.getD "")) with
      | .error e => .error e
      | .ok hk =>
        match loadItems allowed rest with
        | .error e => .error e
        | .ok tail => .ok ((item.name, hk) :: tail)

/-- Embedding of `ModelRegistry._load_from_config`
(`src/app/models/registry.py` lines 68-101), run by the constructor: an empty
model list is rejected; then the entries load in order; finally, with
`allowed_models` set, any requested model missing from the config is a
`ValueError`. -/
def load_from_config (cfg : List CfgItem) (allowed : Option (List String)) :
    Except String (List (String × HandlerKind)) :=
  if cfg.isEmpty then .error "No models configured"
  else
    match loadItems allowed cfg with
    | .error e => .error e
    | .ok loaded =>
      match allowed with
      | none => .ok loaded
      | some req =>
        let names := loaded.map Prod.fst
        let missing := req.filter (fun r => !(names.contains r))
        if missing.isEmpty then .ok loaded
        else .error ("Requested model(s) not found in config: " ++
          String.intercalate ", " missing)

/-! ## Theorems -/

/-- At the admission cap, `acquire` fails with `QueueFull` and leaves the
state untouched (the caller is never parked on the wait list). -/
lemma acquire_at_cap (cfg : LimiterConfig) (s : LimiterState) (t : Nat)
    (hsd : s.shuttingDown = false) (hcap : admittedCount s = cfg.maxAdmitted) :
    acquire cfg s t = (.error .QueueFull, s) := by
  simp [acquire, hsd, hcap]

/-- Below the admission cap, `acquire` succeeds, keeps the shutdown flag
clear, and raises the admitted count by exactly one. -/
lemma acquire_below_cap (cfg : LimiterConfig) (s : LimiterState) (t : Nat)
    (hsd : s.shuttingDown = false) (hlt : admittedCount s < cfg.maxAdmitted) :
    (∃ st, (acquire cfg s t).1 = .ok st)
    ∧ (acquire cfg s t).2.shuttingDown = false
    ∧ admittedCount (acquire cfg s t).2 = admittedCount s + 1 := by
  have hne : admittedCount s ≠ cfg.maxAdmitted := Nat.ne_of_lt hlt
  by_cases hr : s.running.length < cfg.maxConcurrent
  · have ha : acquire cfg s t = (.ok .Running, { s with running := s.running ++ [t] }) := by
      simp [acquire, hsd, hne, hr]
    rw [ha]
    refine ⟨⟨.Running, rfl⟩, hsd, ?_⟩
    simp [admittedCount]
    omega
  · have ha : acquire cfg s t = (.ok .Queued, { s with waiting := s.waiting ++ [t] }) := by
      simp [acquire, hsd, hne, hr]
    rw [ha]
    refine ⟨⟨.Queued, rfl⟩, hsd, ?_⟩
    simp [admittedCount]
    omega

/-- Exact `QueueFull` count for a run of back-to-back acquisitions from any
non-draining state within the admission cap. -/
lemma countQueueFull_runAcquires (cfg : LimiterConfig) :
    ∀ (ts : List Nat) (s : LimiterState),
      s.shuttingDown = false → admittedCount s ≤ cfg.maxAdmitted →
      countQueueFull (runAcquires cfg s ts)
        = admittedCount s + ts.length - min (admittedCount s + ts.length) cfg.maxAdmitted := by
  intro ts
  induction ts with
  | nil =>
    intro s hsd hle
    simp only [runAcquires, countQueueFull, List.length_nil]
    omega
  | cons t ts ih =>
    intro s hsd hle
    by_cases hcap : admittedCount s = cfg.maxAdmitted
    · have ha := acquire_at_cap cfg s t hsd hcap
      have ihs := ih s hsd hle
      simp only [runAcquires, ha, countQueueFull, List.length_cons]
      omega
    · have hlt : admittedCount s < cfg.maxAdmitted := Nat.lt_of_le_of_ne hle hcap
      obtain ⟨⟨st, hst⟩, hsd2, hadm⟩ := acquire_below_cap cfg s t hsd hlt
      have ihs := ih (acquire cfg s t).2 hsd2 (by omega)
      rw [hadm] at ihs
      simp only [runAcquires, hst, countQueueFull, List.length_cons]
      omega

/-- Claim C1: for every sequence of N back-to-back admission attempts with
N > MaxAdmitted, exactly N - MaxAdmitted attempts fail with `QueueFull`; a
`QueueFull` failure is immediate, returning with the state unchanged (the
caller never joins the wait list); and in the concrete scenario
MaxConcurrent = 1, MaxAdmitted = 2, with one caller running and one waiting,
a third `acquire` fails with `QueueFull` while the waiting caller is
promoted to running as soon as the first caller releases. -/
theorem c1_queue_full_admission :
    (∀ (cfg : LimiterConfig) (ts : List Nat), cfg.maxAdmitted < ts.length →
        countQueueFull (runAcquires cfg limiterInit ts) = ts.length - cfg.maxAdmitted)
    ∧ (∀ (cfg : LimiterConfig) (s : LimiterState) (t : Nat),
        s.shuttingDown = false → admittedCount s = cfg.maxAdmitted →
        acquire cfg s t = (.error .QueueFull, s))
    ∧ (let cfg : LimiterConfig := ⟨1, 2⟩
       let p1 := acquire cfg limiterInit 1
       let p2 := acquire cfg p1.2 2
       let p3 := acquire cfg p2.2 3
       p1.1 = .ok .Running ∧ p2.1 = .ok .Queued
       ∧ p3.1 = .error .QueueFull ∧ p3.2 = p2.2
       ∧ (release cfg p3.2 1).running = [2] ∧ (release cfg p3.2 1).waiting = []) := by
  refine ⟨?_, acquire_at_cap, by decide⟩
  intro cfg ts hlen
  rw [countQueueFull_runAcquires cfg ts limiterInit rfl (by simp [admittedCount, limiterInit])]
  simp only [admittedCount, limiterInit, List.length_nil]
  omega

/-- Witness for C1 at concrete inputs: three acquisitions against
MaxAdmitted = 2 yield exactly one `QueueFull`, and an at-cap state rejects
without being modified. -/
theorem c1_queue_full_admission_witness :
    countQueueFull (runAcquires ⟨1, 2⟩ limiterInit [0, 1, 2]) = 1
    ∧ acquire ⟨1, 2⟩ ⟨[5], [6], false⟩ 7
        = (.error .QueueFull, (⟨[5], [6], false⟩ : LimiterState)) :=
  ⟨c1_queue_full_admission.1 ⟨1, 2⟩ [0, 1, 2] (by decide),
   c1_queue_full_admission.2.1 ⟨1, 2⟩ ⟨[5], [6], false⟩ 7 (by decide) (by decide)⟩

/-- Whenever the sub-item counts sum to the output length, the per-caller
slices reassemble to exactly the output sequence, in order. -/
lemma splitByLens_flatten {R : Type} :
    ∀ (lens : List Nat) (outs : List R), lens.sum = outs.length →
      (splitByLens lens outs).flatten = outs := by
  intro lens
  induction lens with
  | nil =>
    intro outs h
    simp only [List.sum_nil] at h
    simp [splitByLens, List.eq_nil_of_length_eq_zero h.symm]
  | cons n ns ih =>
    intro outs h
    simp only [List.sum_cons] at h
    have hdrop : ns.sum = (outs.drop n).length := by
      rw [List.length_drop]
      omega
    simp only [splitByLens, List.flatten_cons, ih (outs.drop n) hdrop,
      List.take_append_drop]

/-- Whenever the sub-item counts sum to the output length, each caller's
slice has exactly its own sub-item count. -/
lemma splitByLens_lengths {R : Type} :
    ∀ (lens : List Nat) (outs : List R), lens.sum = outs.length →
      (splitByLens lens outs).map List.length = lens := by
  intro lens
  induction lens with
  | nil => intro outs _; simp [splitByLens]
  | cons n ns ih =>
    intro outs h
    simp only [List.sum_cons] at h
    have hdrop : ns.sum = (outs.drop n).length := by
      rw [List.length_drop]
      omega
    simp only [splitByLens, List.map_cons, ih (outs.drop n) hdrop, List.length_take]
    congr 1
    omega

/-- Claim C2: a flushed batch is the concatenation of the callers'
sub-items in arrival order, and each caller receives exactly the output
slice corresponding to its own contribution — the slices reassemble to the
full model output and their boundaries match each caller's sub-item count.
Concretely, callers contributing 2, 1 and 3 items against an
index-returning stub receive [0,1], [2] and [3,4,5]. -/
theorem c2_batch_order_and_slices :
    (∀ {T R : Type} (f : List T → List R) (callers : List (List T)),
        (f callers.flatten).length = callers.flatten.length →
        flushResults (fun ts => (Except.ok (f ts) : Except Unit (List R))) callers
            = (splitByLens (callers.map List.length) (f callers.flatten)).map Except.ok
          ∧ (splitByLens (callers.map List.length) (f callers.flatten)).flatten
              = f callers.flatten
          ∧ (splitByLens (callers.map List.length) (f callers.flatten)).map List.length
              = callers.map List.length)
    ∧ flushResults (fun ts => (Except.ok (List.range ts.length) : Except Unit (List Nat)))
        [[10, 11], [20], [30, 31, 32]] = [.ok [0, 1], .ok [2], .ok [3, 4, 5]] := by
  constructor
  · intro T R f callers hlen
    have hsum : (callers.map List.length).sum = (f callers.flatten).length := by
      rw [hlen]
      exact (List.length_flatten callers).symm
    exact ⟨rfl, splitByLens_flatten _ _ hsum, splitByLens_lengths _ _ hsum⟩
  · decide

/-- Witness for C2 at the concrete three-caller example. -/
theorem c2_batch_order_and_slices_witness :
    flushResults (fun ts => (Except.ok (List.range ts.length) : Except Unit (List Nat)))
        [[10, 11], [20], [30, 31, 32]]
      = (splitByLens ([[10, 11], [20], [30, 31, 32]].map List.length)
          (List.range [[10, 11], [20], [30, 31, 32]].flatten.length)).map Except.ok
    ∧ (splitByLens ([[10, 11], [20], [30, 31, 32]].map List.length)
        (List.range [[10, 11], [20], [30, 31, 32]].flatten.length)).flatten
      = List.range [[10, 11], [20], [30, 31, 32]].flatten.length
    ∧ (splitByLens ([[10, 11], [20], [30, 31, 32]].map List.length)
        (List.range [[10, 11], [20], [30, 31, 32]].flatten.length)).map List.length
      = [[10, 11], [20], [30, 31, 32]].map List.length :=
  c2_batch_order_and_slices.1 (fun ts => List.range ts.length)
    [[10, 11], [20], [30, 31, 32]] (by decide)

/-- Claim C3: when the single model invocation for a flushed batch fails,
every caller whose items were in that flush receives that same failure (no
caller receives a partial or stale result), and the API layer maps the
batch failure to HTTP 500. -/
theorem c3_batch_failure_atomic :
    (∀ {T R E : Type} (f : List T → Except E (List R)) (callers : List (List T)) (e : E),
        f callers.flatten = .error e →
        flushResults f callers = callers.map (fun _ => .error e))
    ∧ (∀ {V : Type} (env : Env) (req : EmbeddingReq)
        (registry : String → Option (EmbedModel V)) (m : EmbedModel V),
        validRequest env req → registry req.model = some m →
        m.embed (reqTexts req) = .error () →
        (create_embeddings env req registry (.ok ()) (some true)).response
          = .error ⟨500, none⟩) := by
  constructor
  · intro T R E f callers e h
    simp [flushResults, h]
  · intro V env req registry m hv hm hembed
    obtain ⟨h1, h2, h3⟩ := hv
    have g3 : (reqTexts req).any (fun t => decide (env.maxTextChars < t.length)) = false := by
      simp only [List.any_eq_false, decide_eq_true_eq]
      intro t ht
      exact Nat.not_lt.mpr (h3 t ht)
    have hflush : flushResults m.embed [reqTexts req] = [.error ()] := by
      simp [flushResults, hembed]
    rcases h1 with h1 | h1 <;>
      simp [create_embeddings, h1, Nat.not_lt.mpr h2, g3, hm, batchEnqueue, hflush]

/-- Witness for C3 at a concrete failing batch: two callers to a model that
fails both receive the shared failure, and the API response is 500. -/
theorem c3_batch_failure_atomic_witness :
    flushResults (fun _ => (Except.error 7 : Except Nat (List Nat))) [[1, 2], [3]]
        = [.error 7, .error 7]
    ∧ (create_embeddings ⟨32, 20000, 1⟩ ⟨"m", .inr ["ab"], some "float"⟩
        (fun _ => some ⟨fun _ => .error ()⟩) (.ok ()) (some true)
        : ApiOutcome Nat).response = .error ⟨500, none⟩ :=
  ⟨c3_batch_failure_atomic.1 (fun _ => (Except.error 7 : Except Nat (List Nat)))
      [[1, 2], [3]] 7 rfl,
   c3_batch_failure_atomic.2 ⟨32, 20000, 1⟩ ⟨"m", .inr ["ab"], some "float"⟩
      (fun _ => some ⟨fun _ => .error ()⟩) ⟨fun _ => .error ()⟩
      (by decide) rfl rfl⟩

/-- For a request passing validation, the text-length scan comes back
clean. -/
lemma texts_scan_clean (env : Env) (req : EmbeddingReq)
    (h3 : ∀ t ∈ reqTexts req, t.length ≤ env.maxTextChars) :
    (reqTexts req).any (fun t => decide (env.maxTextChars < t.length)) = false := by
  simp only [List.any_eq_false, decide_eq_true_eq]
  intro t ht
  exact Nat.not_lt.mpr (h3 t ht)

/-- Claim C4: `create_embeddings` translates the three admission errors into
retry guidance exactly as specified — `QueueFullError` and
`QueueTimeoutError` each yield HTTP 429 with a `Retry-After` header of
`int(QUEUE_TIMEOUT_SEC)`, `ShuttingDownError` yields HTTP 503 — after a
single limiter acquisition, with no model invocation and no internal
retry. -/
theorem c4_admission_error_mapping :
    ∀ {V : Type} (env : Env) (req : EmbeddingReq)
      (registry : String → Option (EmbedModel V)) (batcher : Option Bool),
      validRequest env req →
      create_embeddings env req registry (.error .QueueFull) batcher
          = ⟨.error ⟨429, some (pyInt env.queueTimeoutSec)⟩, 1, 0⟩
      ∧ create_embeddings env req registry (.error .QueueTimeout) batcher
          = ⟨.error ⟨429, some (pyInt env.queueTimeoutSec)⟩, 1, 0⟩
      ∧ create_embeddings env req registry (.error .ShuttingDown) batcher
          = ⟨.error ⟨503, none⟩, 1, 0⟩ := by
  intro V env req registry batcher hv
  obtain ⟨h1, h2, h3⟩ := hv
  have g3 := texts_scan_clean env req h3
  rcases h1 with h1 | h1 <;>
    exact ⟨by simp [create_embeddings, h1, Nat.not_lt.mpr h2, g3],
           by simp [create_embeddings, h1, Nat.not_lt.mpr h2, g3],
           by simp [create_embeddings, h1, Nat.not_lt.mpr h2, g3]⟩

/-- Witness for C4 at a concrete valid request with
`QUEUE_TIMEOUT_SEC = 5`. -/
theorem c4_admission_error_mapping_witness :
    create_embeddings ⟨32, 20000, 5⟩ ⟨"m", .inr ["ab"], some "float"⟩
        (fun _ => (none : Option (EmbedModel Nat))) (.error .QueueFull) none
        = ⟨.error ⟨429, some (pyInt 5)⟩, 1, 0⟩
    ∧ create_embeddings ⟨32, 20000, 5⟩ ⟨"m", .inr ["ab"], some "float"⟩
        (fun _ => (none : Option (EmbedModel Nat))) (.error .QueueTimeout) none
        = ⟨.error ⟨429, some (pyInt 5)⟩, 1, 0⟩
    ∧ create_embeddings ⟨32, 20000, 5⟩ ⟨"m", .inr ["ab"], some "float"⟩
        (fun _ => (none : Option (EmbedModel Nat))) (.error .ShuttingDown) none
        = ⟨.error ⟨503, none⟩, 1, 0⟩ :=
  c4_admission_error_mapping ⟨32, 20000, 5⟩ ⟨"m", .inr ["ab"], some "float"⟩
    (fun _ => (none : Option (EmbedModel Nat))) none (by decide)

/-- Claim C5: with batching disabled — no batching service installed
(`batcher = none`) or its enabled flag false — `create_embeddings` bypasses
batch bookkeeping and computes the result by one direct `model.embed` call
on the request's texts, and that result is the same per-text vector list a
single-caller batched submit would deliver. -/
theorem c5_direct_path_refines_batched :
    ∀ {V : Type} (env : Env) (req : EmbeddingReq)
      (registry : String → Option (EmbedModel V)) (m : EmbedModel V)
      (batcher : Option Bool) (vs : List V),
      validRequest env req →
      (batcher = none ∨ batcher = some false) →
      registry req.model = some m →
      m.embed (reqTexts req) = .ok vs →
      vs.length = (reqTexts req).length →
      create_embeddings env req registry (.ok ()) batcher = ⟨.ok vs, 1, 1⟩
      ∧ flushResults m.embed [reqTexts req] = [.ok vs] := by
  intro V env req registry m batcher vs hv hb hm hembed hlen
  obtain ⟨h1, h2, h3⟩ := hv
  have g3 := texts_scan_clean env req h3
  have hflush : flushResults m.embed [reqTexts req] = [.ok vs] := by
    simp only [flushResults, List.flatten_cons, List.flatten_nil, List.append_nil, hembed,
      List.map_cons, List.map_nil, splitByLens, List.length_nil]
    rw [← hlen, List.take_length]
  refine ⟨?_, hflush⟩
  have hbne : ¬ batcher = some true := by
    rcases hb with hb | hb <;> simp [hb]
  rcases h1 with h1 | h1 <;>
    simp [create_embeddings, h1, Nat.not_lt.mpr h2, g3, hm, hbne, hembed]

/-- Witness for C5: with no batching service, a stub model's vectors come
back directly and agree with the single-caller batched result. -/
theorem c5_direct_path_refines_batched_witness :
    create_embeddings ⟨32, 20000, 1⟩ ⟨"m", .inr ["ab"], some "float"⟩
        (fun _ => some ⟨fun ts => .ok (List.range ts.length)⟩) (.ok ()) none
        = ⟨.ok [0], 1, 1⟩
    ∧ flushResults (EmbedModel.embed ⟨fun ts => .ok (List.range ts.length)⟩)
        [reqTexts ⟨"m", .inr ["ab"], some "float"⟩] = [.ok [0]] :=
  c5_direct_path_refines_batched ⟨32, 20000, 1⟩ ⟨"m", .inr ["ab"], some "float"⟩
    (fun _ => some ⟨fun ts => .ok (List.range ts.length)⟩)
    ⟨fun ts => .ok (List.range ts.length)⟩ none [0]
    (by decide) (Or.inl rfl) rfl rfl rfl

/-- Claim C10: every malformed request — an `encoding_format` other than
`None` or `"float"`, more than `MAX_BATCH_SIZE` input texts, or any single
text longer than `MAX_TEXT_CHARS` — is rejected with HTTP 400 before the
limiter is acquired and before any model invocation. -/
theorem c10_validation_before_admission :
    ∀ {V : Type} (env : Env) (req : EmbeddingReq)
      (registry : String → Option (EmbedModel V))
      (lo : Except AcquireError Unit) (batcher : Option Bool),
      (¬ (req.encodingFormat = none ∨ req.encodingFormat = some "float")
        ∨ env.maxBatchSize < (reqTexts req).length
        ∨ ∃ t ∈ reqTexts req, env.maxTextChars < t.length) →
      create_embeddings env req registry lo batcher = ⟨.error ⟨400, none⟩, 0, 0⟩ := by
  intro V env req registry lo batcher hbad
  by_cases he : req.encodingFormat = none ∨ req.encodingFormat = some "float"
  · by_cases hs : env.maxBatchSize < (reqTexts req).length
    · rcases he with he | he <;> simp [create_embeddings, he, hs]
    · have ht : ∃ t ∈ reqTexts req, env.maxTextChars < t.length := by
        rcases hbad with hbad | hbad | hbad
        · exact absurd he hbad
        · exact absurd hbad hs
        · exact hbad
      have g3 : (reqTexts req).any (fun t => decide (env.maxTextChars < t.length)) = true := by
        obtain ⟨t, ht1, ht2⟩ := ht
        simp only [List.any_eq_true, decide_eq_true_eq]
        exact ⟨t, ht1, ht2⟩
      rcases he with he | he <;> simp [create_embeddings, he, hs, g3]
  · simp [create_embeddings, he]

/-- Witness for C10: an unsupported `encoding_format` is rejected with 400,
zero limiter acquisitions and zero model calls. -/
theorem c10_validation_before_admission_witness :
    create_embeddings ⟨32, 20000, 1⟩ ⟨"m", .inr ["ab"], some "base64"⟩
        (fun _ => (none : Option (EmbedModel Nat))) (.ok ()) none
      = ⟨.error ⟨400, none⟩, 0, 0⟩ :=
  c10_validation_before_admission ⟨32, 20000, 1⟩ ⟨"m", .inr ["ab"], some "base64"⟩
    (fun _ => (none : Option (EmbedModel Nat))) (.ok ()) none (by decide)

/-- Invariant for the thread-pool holder: if the holder only ever contains
executors sized `mc`, every executor a run of operations returns is sized
`mc`, and the holder keeps the invariant. -/
lemma runPool_invariant (mc : Nat) :
    ∀ (ops : List PoolOp) (s : Option Executor),
      (∀ x, s = some x → x.maxWorkers = mc) →
      (∀ e ∈ (runPool mc s ops).1, e.maxWorkers = mc)
      ∧ (∀ x, (runPool mc s ops).2 = some x → x.maxWorkers = mc) := by
  intro ops
  induction ops with
  | nil =>
    intro s hs
    refine ⟨?_, hs⟩
    intro e he
    simp [runPool] at he
  | cons op ops ih =>
    intro s hs
    cases op with
    | getOp =>
      cases s with
      | none =>
        have h2 := ih (some ⟨mc⟩) (by intro x hx; cases hx; rfl)
        refine ⟨?_, h2.2⟩
        intro e he
        rcases List.mem_cons.mp he with he | he
        · rw [he]; rfl
        · exact h2.1 e he
      | some e0 =>
        have he0 := hs e0 rfl
        have h2 := ih (some e0) hs
        refine ⟨?_, h2.2⟩
        intro e he
        rcases List.mem_cons.mp he with he | he
        · rw [he]; exact he0
        · exact h2.1 e he
    | shutdownOp =>
      exact ih none (by intro x hx; cases hx)

/-- Claim C6: every executor returned by `get_executor` over any sequence of
pool operations from the fresh state has exactly `MAX_CONCURRENT`
(`mc`) worker slots, so at most that many model invocations can run in
parallel through it. -/
theorem c6_executor_bounded_by_max_concurrent :
    ∀ (mc : Nat) (ops : List PoolOp) (e : Executor),
      e ∈ (runPool mc none ops).1 → e.maxWorkers = mc := by
  intro mc ops e he
  exact (runPool_invariant mc ops none (by intro x hx; cases hx)).1 e he

/-- Witness for C6: a get after a shutdown and a get still returns an
executor with 4 worker slots when `MAX_CONCURRENT = 4`. -/
theorem c6_executor_bounded_by_max_concurrent_witness :
    (⟨4⟩ : Executor).maxWorkers = 4 :=
  c6_executor_bounded_by_max_concurrent 4 [.getOp, .shutdownOp, .getOp] ⟨4⟩ (by decide)

/-- Claim C7: `handle_oom` performs best-effort cleanup — when CUDA is
available it clears the CUDA cache with any cleanup failure suppressed —
and then re-raises exactly the original exception; the original error is
never masked by a cleanup failure, never replaced and never retried. -/
theorem c7_handle_oom_reraises_original :
    ∀ {E : Type} (exc : E) (cudaAvailable : Bool) (emptyCache : Except E Unit),
      handle_oom exc cudaAvailable emptyCache = .error exc := by
  intro E exc cuda ec
  cases cuda <;> cases ec <;> rfl

/-- Claim C8: the metrics emission operations never raise — whatever the
underlying counter or histogram does, `record_request`, `observe_latency`
and `record_queue_rejection` return without an exception. -/
theorem c8_metrics_never_raise :
    ∀ {σ E : Type} (f g h : σ → Except E σ) (s : σ),
      (record_request f s).isOk = true
      ∧ (observe_latency g s).isOk = true
      ∧ (record_queue_rejection h s).isOk = true := by
  intro σ E f g h s
  refine ⟨?_, ?_, ?_⟩
  · unfold record_request
    cases f s <;> rfl
  · unfold observe_latency
    cases g s <;> rfl
  · unfold record_queue_rejection
    cases h s <;> rfl

/-- An unknown model tag in an entry that is actually loaded makes the
per-item loop of `_load_from_config` fail. -/
lemma loadItems_unknown_tag_fails (allowed : Option (List String)) (item : CfgItem)
    (hh : item.handler.getD "" = "") (h1 : item.name ≠ "bge-m3")
    (h2 : item.name ≠ "embedding-gemma-300m")
    (hsk : skipsItem allowed item.name = false) :
    ∀ (l : List CfgItem), item ∈ l → (loadItems allowed l).isOk = false := by
  intro l
  induction l with
  | nil => intro h; cases h
  | cons hd rest ih =>
    intro hmem
    rcases List.mem_cons.mp hmem with heq | hrest
    · subst heq
      simp only [loadItems, hsk, Bool.false_eq_true, if_false, hh, if_pos rfl,
        default_handler_for, h1, h2, if_false]
      rfl
    · by_cases hskhd : skipsItem allowed hd.name = true
      · simp only [loadItems, hskhd, if_true]
        exact ih hrest
      · have hskf : skipsItem allowed hd.name = false := Bool.eq_false_iff.mpr hskhd
        cases hres : (if hd.handler.getD "" = "" then default_handler_for hd.name
            else import_handler (hd.handler.getD "")) with
        | error e => simp [loadItems, hskf, hres, Except.isOk, Except.toBool]
        | ok hk =>
          have hih := ih hrest
          cases hload : loadItems allowed rest with
          | error e2 => simp [loadItems, hskf, hres, hload, Except.isOk, Except.toBool]
          | ok tl => rw [hload] at hih; cases hih

/-- Amended claim C9: for every config entry without an explicit handler
path whose name is neither "bge-m3" nor "embedding-gemma-300m", provided the
entry is not filtered out by the registry's `allowed_models` selection,
`ModelRegistry` construction (`_load_from_config`) fails with an error;
handlers are resolved from the static default mapping. -/
theorem c9_unknown_tag_rejected_at_startup :
    ∀ (cfg : List CfgItem) (allowed : Option (List String)) (item : CfgItem),
      item ∈ cfg →
      item.handler.getD "" = "" →
      item.name ≠ "bge-m3" → item.name ≠ "embedding-gemma-300m" →
      skipsItem allowed item.name = false →
      (load_from_config cfg allowed).isOk = false := by
  intro cfg allowed item hmem hh h1 h2 hsk
  have hne : cfg.isEmpty = false := by
    cases cfg with
    | nil => cases hmem
    | cons hd tl => rfl
  have hItems := loadItems_unknown_tag_fails allowed item hh h1 h2 hsk cfg hmem
  unfold load_from_config
  rw [hne]
  simp only [Bool.false_eq_true, if_false]
  cases hload : loadItems allowed cfg with
  | error e => rfl
  | ok v => rw [hload] at hItems; cases hItems

/-- Witness for C9 (amended): a config whose only entry has an unknown tag
and no handler path fails to load. -/
theorem c9_unknown_tag_rejected_at_startup_witness :
    (load_from_config [⟨"mystery-model", none, "acme/mystery"⟩] none).isOk = false :=
  c9_unknown_tag_rejected_at_startup [⟨"mystery-model", none, "acme/mystery"⟩] none
    ⟨"mystery-model", none, "acme/mystery"⟩ (by decide) rfl (by decide) (by decide) rfl

/-- Counterexample to C9 as stated: with `allowed_models = {"bge-m3"}`, a
config entry named "mystery-model" with no handler path is skipped rather
than rejected, and registry construction succeeds. -/
theorem c9_claim_as_stated_false :
    (load_from_config [⟨"mystery-model", none, "acme/mystery"⟩, ⟨"bge-m3", none, "baai/bge-m3"⟩]
        (some ["bge-m3"])).isOk = true
    ∧ (⟨"mystery-model", none, "acme/mystery"⟩ : CfgItem).handler = none
    ∧ "mystery-model" ≠ "bge-m3" ∧ "mystery-model" ≠ "embedding-gemma-300m"
    ∧ (⟨"mystery-model", none, "acme/mystery"⟩ : CfgItem)
        ∈ [(⟨"mystery-model", none, "acme/mystery"⟩ : CfgItem),
           ⟨"bge-m3", none, "baai/bge-m3"⟩] := by
  refine ⟨by decide, rfl, by decide, by decide, by decide⟩

end InferServer
